import Mathlib

/-!
# rh-trex-core: transaction construction, logger context, mock data-access object

A shallow embedding of

* `db/transactions.go`  : `NewTransaction`, `defaultRollbackPolicy`, and the collaborator
  interfaces `CoreSessionFactory`, `CoreDirectConnection`, `CoreRow`;
* `logger/logger.go`    : `basicLogger`, `NewOCMLogger`, `basicLogger.Extra`;
* `example_test.go`     : `User`, `mockUserDAO` with `Get`, `Create`, `Replace`.

Go interface values are records of their methods' behaviour and may be nil (`Option`).
A call on a collaborator is recorded in a call log, so that statements about which store
operations are (not) performed can be made. Run-time panics (nil dereference, write to a
nil map) are an explicit outcome.
-/

namespace trex

/-! ## Go run-time outcomes -/

/-- A Go `error` value (non-nil); `Option Error` is the type `error` with `none` for nil. -/
structure Error where
  msg : String
  deriving DecidableEq, Repr

/-- How a Go call ends: it returns its results, or it panics. -/
inductive Outcome (α : Type) where
  | returned (a : α)
  | panicked
  deriving Repr

/-- The two errors a `context.Context` reports once it is done. -/
inductive CtxErr where
  | Canceled
  | DeadlineExceeded
  deriving DecidableEq, Repr

/-- A `context.Context` as far as a callee can observe it: `Err()` is nil while the context
is live, and `Canceled` or `DeadlineExceeded` once it is cancelled or past its deadline. -/
structure Context where
  Err : Option CtxErr
  deriving DecidableEq, Repr

/-- The context `context.Background()`: never cancelled, no deadline. -/
def Context.Background : Context := ⟨none⟩

/-! ## `db/transactions.go` -/

namespace db

/-- The constant `defaultRollbackPolicy` (transactions.go:12). -/
def defaultRollbackPolicy : Bool := false

/-- The interface `CoreRow` (transactions.go:26-28). `Scan` is called with one destination,
the address of an `int64`: it maps the contents of the destination before the call to its
contents after the call, and returns an error or nil. -/
structure CoreRow where
  Scan : Int → Int × Option Error

end db

/-- The type `sql.Row` of `database/sql`, as far as `NewTransaction` uses it: its method
`Scan`, called with one destination, the address of an `int64`. It maps the contents of the
destination before the call to its contents after the call, and returns an error or nil. A
query that yields no row is reported here, as the error `sql.ErrNoRows`. -/
structure sql.Row where
  Scan : Int → Int × Option Error

/-- The error `sql.ErrNoRows` of `database/sql`. -/
def sql.ErrNoRows : Error := ⟨"sql: no rows in result set"⟩

/-- The part of `database/sql`'s `*sql.Tx` that `NewTransaction` uses: the handle itself and
its method `QueryRow(query, args...)`. That method always returns a row, never nil: whatever
goes wrong with the query is kept in the row and reported by its `Scan`. `Commit` and
`Rollback` exist on the handle; they appear as `Call.Commit` / `Call.Rollback` in call
logs. -/
structure sql.Tx where
  handle : Nat
  QueryRow : String → List String → sql.Row

namespace db

/-- The interface `CoreDirectConnection` (transactions.go:20-23). `Begin` returns the pair
`(*sql.Tx, error)`, each of which may be nil. -/
structure CoreDirectConnection where
  Begin : Option sql.Tx × Option Error
  QueryRow : String → List String → Option CoreRow

/-- The interface `CoreSessionFactory` (transactions.go:15-17); `DirectDB` returns an
interface value, which may be nil. -/
structure CoreSessionFactory where
  DirectDB : Option CoreDirectConnection

/-- A call made on a collaborator (the connection provider, the connection, the store
transaction, or a row). -/
inductive Call where
  | DirectDB
  | Begin
  | ConnQueryRow (query : String) (args : List String)
  | TxQueryRow (query : String) (args : List String)
  | Scan
  | Commit
  | Rollback
  deriving DecidableEq, Repr

/-- Whether a call issues a query to the store. -/
def Call.isQuery : Call → Bool
  | .ConnQueryRow _ _ => true
  | .TxQueryRow _ _ => true
  | _ => false

/-- One run of `NewTransaction`: the collaborator calls it made, in order, and how it ended.
A returned pair is `(*transaction.Transaction, error)`. -/
structure Run (T : Type) where
  calls : List Call
  outcome : Outcome (Option T × Option Error)

/-- The function `NewTransaction` (transactions.go:31-55).

`transaction.Build` belongs to package `db/transaction`, which is not among the sources; it
is the parameter `Build`, applied to the store transaction, the transaction identifier and the
rollback flag exactly as in line 54. `ctx` is a parameter of the function and is not used in
its body. `row` is a `*sql.Row`, a pointer that line 47 compares with nil; `tx.QueryRow`
never returns nil, so the pointer is always `some` row. -/
def NewTransaction {T : Type} (Build : sql.Tx → Int → Bool → T)
    (_ctx : Context) (connection : Option CoreSessionFactory) : Run T :=
  match connection with
  | none =>
    -- This happens in non-integration tests
    ⟨[], .returned (none, none)⟩
  | some connection =>
    -- dbx := connection.DirectDB()
    match connection.DirectDB with
    | none =>
      -- dbx.Begin() on a nil interface value
      ⟨[.DirectDB], .panicked⟩
    | some dbx =>
      -- tx, err := dbx.Begin()
      match dbx.Begin with
      | (_, some err) => ⟨[.DirectDB, .Begin], .returned (none, some err)⟩
      | (none, none) =>
        -- tx.QueryRow(...) on a nil *sql.Tx
        ⟨[.DirectDB, .Begin, .TxQueryRow "select txid_current()" []], .panicked⟩
      | (some tx, none) =>
        -- var txid int64
        let txid : Int := 0
        -- row := tx.QueryRow("select txid_current()")
        let row : Option sql.Row := some (tx.QueryRow "select txid_current()" [])
        -- if row != nil
        match row with
        | none =>
          ⟨[.DirectDB, .Begin, .TxQueryRow "select txid_current()" []],
            .returned (some (Build tx txid defaultRollbackPolicy), none)⟩
        | some row =>
          -- err := row.Scan(&txid)
          match row.Scan txid with
          | (_, some err) =>
            ⟨[.DirectDB, .Begin, .TxQueryRow "select txid_current()" [], .Scan],
              .returned (none, some err)⟩
          | (txid, none) =>
            ⟨[.DirectDB, .Begin, .TxQueryRow "select txid_current()" [], .Scan],
              .returned (some (Build tx txid defaultRollbackPolicy), none)⟩

/-- The predicate: `Begin` fails with error `e`, that is, the provider hands out a
connection whose `Begin` returns the non-nil error `e`. -/
def BeginFailsWith (f : CoreSessionFactory) (e : Error) : Prop :=
  ∃ dbx, f.DirectDB = some dbx ∧ dbx.Begin.2 = some e

/-- The predicate: the `Scan` of the transaction-identifier row fails with error `e`, that is,
`Begin` succeeds with a store transaction, the identifier query on it yields the row `row`,
and `Scan` on that row (with the destination holding 0) returns the non-nil error `e`. -/
def ScanFailsWith (f : CoreSessionFactory) (e : Error) : Prop :=
  ∃ dbx tx row, f.DirectDB = some dbx ∧ dbx.Begin = (some tx, none) ∧
    tx.QueryRow "select txid_current()" [] = row ∧ (row.Scan 0).2 = some e

/-! ### Sample collaborators -/

/-- A `Build` that records its three arguments: the handle of the store transaction, the
transaction identifier and the rollback flag. -/
def recordBuild (tx : sql.Tx) (txid : Int) (rollbackFlag : Bool) : Nat × Int × Bool :=
  (tx.handle, txid, rollbackFlag)

/-- A row whose `Scan` writes `v` into the destination and returns nil. -/
def rowWriting (v : Int) : sql.Row := ⟨fun _ => (v, none)⟩

/-- A row whose `Scan` leaves the destination alone and returns the error `e`. -/
def rowFailing (e : Error) : sql.Row := ⟨fun d => (d, some e)⟩

/-- A store transaction with handle 7 whose every query yields `row`. -/
def txYielding (row : sql.Row) : sql.Tx := ⟨7, fun _ _ => row⟩

/-- A provider whose connection returns `begin` from `Begin`. -/
def providerWith (begin : Option sql.Tx × Option Error) : CoreSessionFactory :=
  ⟨some ⟨begin, fun _ _ => none⟩⟩

/-- A provider on which everything succeeds: `Begin` gives transaction 7 and the identifier
row scans as 42. -/
def healthyProvider : CoreSessionFactory :=
  providerWith (some (txYielding (rowWriting 42)), none)

/-- A provider whose `Begin` succeeds and whose identifier row fails to scan. -/
def scanFailingProvider : CoreSessionFactory :=
  providerWith (some (txYielding (rowFailing ⟨"scan failed"⟩)), none)

/-- A provider whose `Begin` fails. -/
def beginFailingProvider : CoreSessionFactory :=
  providerWith (none, some ⟨"cannot connect"⟩)

/-- A provider whose `Begin` succeeds and whose identifier query yields no row: the row that
`QueryRow` returns reports `sql.ErrNoRows` from `Scan`. -/
def noRowProvider : CoreSessionFactory :=
  providerWith (some (txYielding (rowFailing sql.ErrNoRows)), none)

/-- A provider whose `Begin` succeeds and whose identifier row scans as 0. -/
def zeroProvider : CoreSessionFactory :=
  providerWith (some (txYielding (rowWriting 0)), none)

/-- A context that has been cancelled. -/
def cancelledCtx : Context := ⟨some .Canceled⟩

end db

/-! ## `logger/logger.go` -/

namespace logger

/-- The contents of an allocated Go `map[string]string`: a finite table with one value per
key. -/
abbrev StrMap : Type := AList (fun _ : String => String)

/-- The allocated maps of the program. A map is a reference: address `a` refers to the
`a`-th allocated map. -/
structure Heap where
  maps : List StrMap

/-- The struct `basicLogger` (logger.go:18-20): its field `extras` is a map reference, nil
(`none`) or the address of an allocated map. -/
structure basicLogger where
  extras : Option Nat
  deriving DecidableEq, Repr

/-- The expression `make(map[string]string)`: allocates an empty map at a fresh address. -/
def Heap.make (h : Heap) : Heap × Nat :=
  (⟨h.maps ++ [∅]⟩, h.maps.length)

/-- The statement `m[k] = v` on the allocated map at address `a`. -/
def Heap.store (h : Heap) (a : Nat) (k v : String) : Heap :=
  ⟨h.maps.set a ((h.maps.getD a ∅).insert k v)⟩

/-- The entries of the map `ref` refers to, which `range` visits (each once, in an order Go
leaves unspecified); a nil map has none. -/
def Heap.entries (h : Heap) (ref : Option Nat) : List (Sigma (fun _ : String => String)) :=
  match ref with
  | none => []
  | some a => (h.maps.getD a ∅).entries

/-- The key/value context of logger `l`: the contents of the map its field `extras` refers
to; a nil map reads as the empty map. -/
def Heap.context (h : Heap) (l : basicLogger) : Option StrMap :=
  match l.extras with
  | none => some ∅
  | some a => h.maps[a]?

/-- The function `NewOCMLogger` (logger.go:23-27). -/
def NewOCMLogger (h : Heap) (_ctx : Context) : Heap × basicLogger :=
  let (h1, a) := h.make
  (h1, ⟨some a⟩)

/-- The method `basicLogger.V` (logger.go:40-42). -/
def basicLogger.V (l : basicLogger) (_level : Int) : basicLogger := l

/-- The method `basicLogger.Extra` (logger.go:45-54). The `range` loop of line 49 visits the
entries of `l.extras` in an order Go leaves unspecified: `order` is that choice, a
rearrangement of the entries. -/
def basicLogger.Extra (h : Heap) (l : basicLogger) (key value : String)
    (order : List (Sigma (fun _ : String => String)) →
      List (Sigma (fun _ : String => String))) : Heap × basicLogger :=
  -- newLogger := &basicLogger{extras: make(map[string]string)}
  let (h1, a) := h.make
  -- for k, v := range l.extras { newLogger.extras[k] = v }
  let h2 := (order (h1.entries l.extras)).foldl (fun hh kv => hh.store a kv.1 kv.2) h1
  -- newLogger.extras[key] = value
  let h3 := h2.store a key value
  (h3, ⟨some a⟩)

/-- A context with two keys. -/
def sampleContext : StrMap := ((∅ : StrMap).insert "request" "r1").insert "trace" "t9"

/-- A heap whose only map is `sampleContext`. -/
def sampleHeap : Heap := ⟨[sampleContext]⟩

end logger

/-! ## `example_test.go` -/

/-- The struct `api.Meta`, embedded in `User`. Package `api` is not among the sources: the
sources use its field `ID` only, and its remaining fields are the parameter `R`. -/
structure api.Meta (R : Type) where
  ID : String
  rest : R

namespace main

/-- The struct `User` (example_test.go:13-17). -/
structure User (R : Type) extends api.Meta R where
  Name : String
  Email : String

/-- A `*User`: nil or the address of a `User` object. -/
abbrev Ptr : Type := Option Nat

/-- The memory a `mockUserDAO` works on: the `User` objects of the program (address `p` is
the `p`-th object) and the DAO's field `users`, a `map[string]*User` that is nil (`none`) or
allocated. Go has no pointer to a missing object; the methods below treat an address without
an object like nil. -/
structure mockUserDAO (R : Type) where
  objects : List (User R)
  users : Option (AList (fun _ : String => Ptr))

/-- The method `mockUserDAO.Get` (example_test.go:24-29). Reading a nil map finds nothing. -/
def mockUserDAO.Get {R : Type} (m : mockUserDAO R) (_ctx : Context) (id : String) :
    Ptr × Option Error :=
  match m.users with
  | none => (none, some ⟨"user not found"⟩)
  | some tbl =>
    match tbl.lookup id with
    | some user => (user, none)
    | none => (none, some ⟨"user not found"⟩)

/-- The method `mockUserDAO.Create` (example_test.go:31-35). Writing through a nil `user`
panics, and so does writing to a nil map. -/
def mockUserDAO.Create {R : Type} (m : mockUserDAO R) (_ctx : Context) (user : Ptr) :
    Outcome (mockUserDAO R × Ptr × Option Error) :=
  match user with
  | none => .panicked
  | some p =>
    match m.objects[p]? with
    | none => .panicked
    | some u =>
      -- user.ID = "test-id"
      let u1 : User R := { u with ID := "test-id" }
      let objects := m.objects.set p u1
      -- m.users[user.ID] = user
      match m.users with
      | none => .panicked
      | some tbl => .returned (⟨objects, some (tbl.insert u1.ID (some p))⟩, some p, none)

/-- The method `mockUserDAO.Replace` (example_test.go:37-40). Reading through a nil `user`
panics, and so does writing to a nil map. -/
def mockUserDAO.Replace {R : Type} (m : mockUserDAO R) (_ctx : Context) (user : Ptr) :
    Outcome (mockUserDAO R × Ptr × Option Error) :=
  match user with
  | none => .panicked
  | some p =>
    match m.objects[p]? with
    | none => .panicked
    | some u =>
      -- m.users[user.ID] = user
      match m.users with
      | none => .panicked
      | some tbl => .returned (⟨m.objects, some (tbl.insert u.ID (some p))⟩, some p, none)

/-- An empty, allocated store with one `User` object at address 0. -/
def freshDAO (u : User Unit) : mockUserDAO Unit := ⟨[u], some ∅⟩

/-- The entity of the test (example_test.go:86-89): no identifier yet. -/
def johnDoe : User Unit :=
  { ID := "", rest := (), Name := "John Doe", Email := "john@example.com" }

/-- An entity that carries the identifier "u1", which no store has seen. -/
def stranger : User Unit :=
  { ID := "u1", rest := (), Name := "Ann", Email := "ann@example.com" }

end main

/-! # Theorems -/

namespace db

/-! ### Theorems about `NewTransaction` -/

/-- Claim C1: with a nil connection provider, `NewTransaction` returns (nil transaction,
nil error) for every context and makes no collaborator call at all: no `DirectDB`, no
`Begin`, no query. -/
theorem NewTransaction_nil_provider {T : Type} (Build : sql.Tx → Int → Bool → T)
    (ctx : Context) :
    (NewTransaction Build ctx none).outcome = .returned (none, none) ∧
      (NewTransaction Build ctx none).calls = [] :=
  ⟨rfl, rfl⟩

/-- Claim C2: with a non-nil connection provider, `NewTransaction` returns the pair `(t, e)`
with a non-nil error `e` exactly when `t` is nil and `e` is the error with which `Begin`
failed or the error with which the `Scan` of the identifier row failed. -/
theorem NewTransaction_error_iff {T : Type} (Build : sql.Tx → Int → Bool → T)
    (ctx : Context) (f : CoreSessionFactory) (t : Option T) (e : Error) :
    (NewTransaction Build ctx (some f)).outcome = .returned (t, some e) ↔
      t = none ∧ (BeginFailsWith f e ∨ ScanFailsWith f e) := by
  obtain ⟨db⟩ := f
  cases db with
  | none => simp [NewTransaction, BeginFailsWith, ScanFailsWith]
  | some dbx =>
    obtain ⟨⟨tx, err⟩, q⟩ := dbx
    cases err with
    | some err =>
      simp [NewTransaction, BeginFailsWith, ScanFailsWith]
      intro _
      exact eq_comm
    | none =>
      cases tx with
      | none => simp [NewTransaction, BeginFailsWith, ScanFailsWith]
      | some tx =>
        rcases hscan : (tx.QueryRow "select txid_current()" []).Scan 0 with ⟨v, serr⟩
        cases serr with
        | none => simp [NewTransaction, BeginFailsWith, ScanFailsWith, hscan]
        | some serr =>
          simp [NewTransaction, BeginFailsWith, ScanFailsWith, hscan]
          intro _
          exact eq_comm

/-- Claim C3: with a non-nil provider whose `Begin` succeeds with store transaction `tx` and whose
identifier row scans successfully, writing `v`, `NewTransaction` returns a nil error and the
transaction `Build tx v false`: built from `tx`, with captured identifier `v` and rollback
flag false (the value of `defaultRollbackPolicy`). -/
theorem NewTransaction_success {T : Type} (Build : sql.Tx → Int → Bool → T)
    (ctx : Context) (f : CoreSessionFactory) (dbx : CoreDirectConnection) (tx : sql.Tx)
    (row : sql.Row) (v : Int)
    (hdb : f.DirectDB = some dbx) (hbegin : dbx.Begin = (some tx, none))
    (hrow : tx.QueryRow "select txid_current()" [] = row)
    (hscan : row.Scan 0 = (v, none)) :
    (NewTransaction Build ctx (some f)).outcome = .returned (some (Build tx v false), none) ∧
      defaultRollbackPolicy = false := by
  refine ⟨?_, rfl⟩
  simp [NewTransaction, hdb, hbegin, hrow, hscan, defaultRollbackPolicy]

/-- Witness of C3 on the provider on which everything succeeds. -/
theorem NewTransaction_success_witness :
    (NewTransaction recordBuild Context.Background (some healthyProvider)).outcome
        = .returned (some (recordBuild (txYielding (rowWriting 42)) 42 false), none) ∧
      defaultRollbackPolicy = false :=
  NewTransaction_success recordBuild Context.Background healthyProvider
    ⟨(some (txYielding (rowWriting 42)), none), fun _ _ => none⟩
    (txYielding (rowWriting 42)) (rowWriting 42) 42 rfl rfl rfl rfl

/-- Claim C4: in every run of `NewTransaction` in which `Begin` succeeds (a store transaction
and a nil error), exactly one query is issued, it is the text "select txid_current()" with
no arguments, and it is the call that follows `Begin` directly; when the connection provider
is nil, and when `Begin` fails, no query is issued. -/
theorem NewTransaction_queries {T : Type} (Build : sql.Tx → Int → Bool → T) (ctx : Context) :
    (∀ f dbx tx, f.DirectDB = some dbx → dbx.Begin = (some tx, none) →
        (NewTransaction Build ctx (some f)).calls.filter Call.isQuery
            = [.TxQueryRow "select txid_current()" []] ∧
          ∃ rest, (NewTransaction Build ctx (some f)).calls
            = [.DirectDB, .Begin, .TxQueryRow "select txid_current()" []] ++ rest) ∧
      (NewTransaction Build ctx none).calls.filter Call.isQuery = [] ∧
      (∀ f dbx tx e, f.DirectDB = some dbx → dbx.Begin = (tx, some e) →
        (NewTransaction Build ctx (some f)).calls.filter Call.isQuery = []) := by
  refine ⟨fun f dbx tx hdb hbegin => ?_, rfl, fun f dbx tx e hdb hbegin => ?_⟩
  · rcases hscan : (tx.QueryRow "select txid_current()" []).Scan 0 with ⟨v, serr⟩
    cases serr <;> simp [NewTransaction, hdb, hbegin, hscan, Call.isQuery]
  · simp [NewTransaction, hdb, hbegin, Call.isQuery]

/-- Witness of C4 on a provider on which everything succeeds and on one whose `Begin`
fails. -/
theorem NewTransaction_queries_witness :
    ((NewTransaction recordBuild Context.Background (some healthyProvider)).calls.filter
          Call.isQuery = [.TxQueryRow "select txid_current()" []] ∧
        ∃ rest, (NewTransaction recordBuild Context.Background (some healthyProvider)).calls
          = [.DirectDB, .Begin, .TxQueryRow "select txid_current()" []] ++ rest) ∧
      (NewTransaction recordBuild Context.Background (some beginFailingProvider)).calls.filter
          Call.isQuery = [] :=
  ⟨(NewTransaction_queries recordBuild Context.Background).1 healthyProvider
      ⟨(some (txYielding (rowWriting 42)), none), fun _ _ => none⟩
      (txYielding (rowWriting 42)) rfl rfl,
    (NewTransaction_queries recordBuild Context.Background).2.2 beginFailingProvider
      ⟨(none, some ⟨"cannot connect"⟩), fun _ _ => none⟩ none ⟨"cannot connect"⟩ rfl rfl⟩

/-- Claim C5: when `Begin` succeeds and the `Scan` of the identifier row fails with error `e`,
`NewTransaction` returns `(nil, e)` after exactly the calls `DirectDB`, `Begin`, the identifier
query and `Scan`: neither `Rollback` nor `Commit` is called on the store transaction that
was begun, which is left open. -/
theorem NewTransaction_scan_failure_leaves_tx_open {T : Type}
    (Build : sql.Tx → Int → Bool → T) (ctx : Context) (f : CoreSessionFactory)
    (dbx : CoreDirectConnection) (tx : sql.Tx) (row : sql.Row) (d : Int) (e : Error)
    (hdb : f.DirectDB = some dbx) (hbegin : dbx.Begin = (some tx, none))
    (hrow : tx.QueryRow "select txid_current()" [] = row)
    (hscan : row.Scan 0 = (d, some e)) :
    (NewTransaction Build ctx (some f)).outcome = .returned (none, some e) ∧
      (NewTransaction Build ctx (some f)).calls
        = [.DirectDB, .Begin, .TxQueryRow "select txid_current()" [], .Scan] ∧
      Call.Rollback ∉ (NewTransaction Build ctx (some f)).calls ∧
      Call.Commit ∉ (NewTransaction Build ctx (some f)).calls := by
  simp [NewTransaction, hdb, hbegin, hrow, hscan]

/-- Witness of C5 on a provider whose identifier row fails to scan. -/
theorem NewTransaction_scan_failure_leaves_tx_open_witness :
    (NewTransaction recordBuild Context.Background (some scanFailingProvider)).outcome
        = .returned (none, some ⟨"scan failed"⟩) ∧
      (NewTransaction recordBuild Context.Background (some scanFailingProvider)).calls
        = [.DirectDB, .Begin, .TxQueryRow "select txid_current()" [], .Scan] ∧
      Call.Rollback ∉ (NewTransaction recordBuild Context.Background
        (some scanFailingProvider)).calls ∧
      Call.Commit ∉ (NewTransaction recordBuild Context.Background
        (some scanFailingProvider)).calls :=
  NewTransaction_scan_failure_leaves_tx_open recordBuild Context.Background
    scanFailingProvider
    ⟨(some (txYielding (rowFailing ⟨"scan failed"⟩)), none), fun _ _ => none⟩
    (txYielding (rowFailing ⟨"scan failed"⟩)) (rowFailing ⟨"scan failed"⟩) 0
    ⟨"scan failed"⟩ rfl rfl rfl rfl

/-- Counterexample to C6: the context is already cancelled, the provider is non-nil, and
`NewTransaction` still returns a transaction (handle 7, identifier 42, flag false) and a nil
error, not a cancellation error. -/
theorem NewTransaction_cancelled_ctx_not_observed :
    cancelledCtx.Err = some CtxErr.Canceled ∧
      (NewTransaction recordBuild cancelledCtx (some healthyProvider)).outcome
        = .returned (some (7, 42, false), none) :=
  ⟨rfl, rfl⟩

/-- Claim C6, amended: `NewTransaction` does not observe the context. For every non-nil
connection provider and every context, cancelled and expired ones included, the run (the
calls made and the result) is the run under the background context, that is, the result the
store operations give. -/
theorem NewTransaction_ctx_irrelevant {T : Type} (Build : sql.Tx → Int → Bool → T)
    (ctx : Context) (f : CoreSessionFactory) :
    NewTransaction Build ctx (some f) = NewTransaction Build Context.Background (some f) :=
  rfl

/-- Counterexample to C10: `Begin` succeeds and the identifier query yields no row. The row
handle is not nil, `NewTransaction` does not skip the `Scan`, and it does not succeed: it
returns no transaction and the error `sql.ErrNoRows` that `Scan` reports. -/
theorem NewTransaction_no_row_is_scan_error :
    Call.Scan ∈ (NewTransaction recordBuild Context.Background (some noRowProvider)).calls ∧
      (NewTransaction recordBuild Context.Background (some noRowProvider)).outcome
        = .returned (none, some sql.ErrNoRows) := by
  refine ⟨?_, rfl⟩
  simp [NewTransaction, noRowProvider, providerWith, txYielding, rowFailing]

/-- Claim C10, amended: when `Begin` succeeds, the identifier query always yields a row
handle, so `NewTransaction` never skips the `Scan`. It returns a nil error and the
transaction `Build tx 0 false` (captured identifier 0, rollback flag false) when the `Scan`
succeeds with the destination holding 0, and it returns no transaction and the error of the
`Scan` when the `Scan` fails, as it does when the query yields no row. -/
theorem NewTransaction_always_scans {T : Type} (Build : sql.Tx → Int → Bool → T)
    (ctx : Context) (f : CoreSessionFactory) (dbx : CoreDirectConnection) (tx : sql.Tx)
    (hdb : f.DirectDB = some dbx) (hbegin : dbx.Begin = (some tx, none)) :
    Call.Scan ∈ (NewTransaction Build ctx (some f)).calls ∧
      ((tx.QueryRow "select txid_current()" []).Scan 0 = (0, none) →
        (NewTransaction Build ctx (some f)).outcome
          = .returned (some (Build tx 0 false), none)) ∧
      (∀ d e, (tx.QueryRow "select txid_current()" []).Scan 0 = (d, some e) →
        (NewTransaction Build ctx (some f)).outcome = .returned (none, some e)) := by
  rcases hscan : (tx.QueryRow "select txid_current()" []).Scan 0 with ⟨v, serr⟩
  cases serr with
  | none =>
    refine ⟨?_, fun h0 => ?_, fun d e h => ?_⟩
    · simp [NewTransaction, hdb, hbegin, hscan]
    · have hv : v = 0 := (Prod.mk.inj h0).1
      subst hv
      simp [NewTransaction, hdb, hbegin, hscan, defaultRollbackPolicy]
    · exact absurd (Prod.mk.inj h).2 (by simp)
  | some serr =>
    refine ⟨?_, fun h0 => ?_, fun d e h => ?_⟩
    · simp [NewTransaction, hdb, hbegin, hscan]
    · exact absurd (Prod.mk.inj h0).2 (by simp)
    · have he : serr = e := Option.some.inj (Prod.mk.inj h).2
      subst he
      simp [NewTransaction, hdb, hbegin, hscan]

/-- Witness of C10, amended: on a provider whose row scans as 0 the `Scan` is called and
the transaction with identifier 0 is returned; on a provider whose query yields no row the
error of the `Scan` is returned. -/
theorem NewTransaction_always_scans_witness :
    (Call.Scan ∈ (NewTransaction recordBuild Context.Background (some zeroProvider)).calls ∧
        (NewTransaction recordBuild Context.Background (some zeroProvider)).outcome
          = .returned (some (recordBuild (txYielding (rowWriting 0)) 0 false), none)) ∧
      (NewTransaction recordBuild Context.Background (some noRowProvider)).outcome
        = .returned (none, some sql.ErrNoRows) :=
  ⟨⟨(NewTransaction_always_scans recordBuild Context.Background zeroProvider
        ⟨(some (txYielding (rowWriting 0)), none), fun _ _ => none⟩
        (txYielding (rowWriting 0)) rfl rfl).1,
      (NewTransaction_always_scans recordBuild Context.Background zeroProvider
        ⟨(some (txYielding (rowWriting 0)), none), fun _ _ => none⟩
        (txYielding (rowWriting 0)) rfl rfl).2.1 rfl⟩,
    (NewTransaction_always_scans recordBuild Context.Background noRowProvider
        ⟨(some (txYielding (rowFailing sql.ErrNoRows)), none), fun _ _ => none⟩
        (txYielding (rowFailing sql.ErrNoRows)) rfl rfl).2.2 0 sql.ErrNoRows rfl⟩

end db

namespace logger

/-- A store into the allocated map at `a` inserts into that map. -/
theorem store_same (h : Heap) (a : Nat) (k v : String) (m : StrMap)
    (hm : h.maps[a]? = some m) : (h.store a k v).maps[a]? = some (m.insert k v) := by
  have hlt : a < h.maps.length := by
    rcases Nat.lt_or_ge a h.maps.length with hl | hl
    · exact hl
    · rw [List.getElem?_eq_none hl] at hm
      cases hm
  simp [Heap.store, List.getElem?_set, hlt, List.getD, hm]

/-- A store into the map at `a` leaves the map at every other address alone. -/
theorem store_other (h : Heap) (a b : Nat) (k v : String) (hb : a ≠ b) :
    (h.store a k v).maps[b]? = h.maps[b]? := by
  simp [Heap.store, List.getElem?_set, hb]

/-- The copy loop of `Extra`, run on the heap, is the same loop run on the contents of the
map at `a`, and it leaves every other map alone. -/
theorem fold_store (a : Nat) (visit : List (Sigma (fun _ : String => String))) :
    ∀ (h : Heap) (m : StrMap), h.maps[a]? = some m →
      (visit.foldl (fun hh kv => hh.store a kv.1 kv.2) h).maps[a]?
          = some (visit.foldl (fun t kv => t.insert kv.1 kv.2) m) ∧
        ∀ b, a ≠ b →
          (visit.foldl (fun hh kv => hh.store a kv.1 kv.2) h).maps[b]? = h.maps[b]? := by
  induction visit with
  | nil => intro h m hm; exact ⟨hm, fun _ _ => rfl⟩
  | cons e es ih =>
    intro h m hm
    have h1 := store_same h a e.1 e.2 m hm
    obtain ⟨ih1, ih2⟩ := ih (h.store a e.1 e.2) (m.insert e.1 e.2) h1
    refine ⟨ih1, fun b hb => ?_⟩
    rw [List.foldl_cons, ih2 b hb, store_other h a b e.1 e.2 hb]

/-- Inserting a list of entries with distinct keys into a map `m`, one after the other:
a key of the list maps to its value in the list, any other key to its value in `m`. -/
theorem lookup_fold_insert (es : List (Sigma (fun _ : String => String))) :
    ∀ (_ : es.NodupKeys) (m : StrMap) (j : String),
      (es.foldl (fun t kv => t.insert kv.1 kv.2) m).lookup j
        = match es.dlookup j with
          | some v => some v
          | none => m.lookup j := by
  induction es with
  | nil => intro _ m j; rfl
  | cons e es ih =>
    intro nd m j
    obtain ⟨k, v⟩ := e
    rw [List.nodupKeys_cons] at nd
    rw [List.foldl_cons, ih nd.2]
    by_cases hj : j = k
    · subst hj
      have : es.dlookup j = none := List.dlookup_eq_none.mpr nd.1
      simp [this, AList.lookup_insert]
    · have hne : k ≠ j := fun h => hj h.symm
      have hc : List.dlookup j (⟨k, v⟩ :: es) = List.dlookup j es :=
        List.dlookup_cons_ne es ⟨k, v⟩ hj
      rw [hc, AList.lookup_insert_ne hj]

/-- The entries `range` visits for a logger with context `E` are the entries of `E`, also
after a further map has been allocated. -/
theorem entries_of_context (h : Heap) (l : basicLogger) (E : StrMap)
    (hE : h.context l = some E) : (h.make.1).entries l.extras = E.entries := by
  obtain ⟨ref⟩ := l
  cases ref with
  | none =>
    simp only [Heap.context, Option.some.injEq] at hE
    subst hE
    rfl
  | some b =>
    simp only [Heap.context] at hE
    have hlt : b < h.maps.length := by
      rcases Nat.lt_or_ge b h.maps.length with hl | hl
      · exact hl
      · rw [List.getElem?_eq_none hl] at hE
        cases hE
    have h1 : (h.maps ++ [(∅ : StrMap)])[b]? = some E := by
      rw [List.getElem?_append_left hlt]
      exact hE
    simp [Heap.entries, Heap.make, List.getD, h1]

/-- A heap that agrees with `h` extended by one fresh map, except at the fresh address,
gives logger `l` the context it has in `h`. -/
theorem context_ne_fresh (h : Heap) (l : basicLogger) (E : StrMap)
    (hE : h.context l = some E) (h3 : Heap)
    (hframe : ∀ b, h.maps.length ≠ b → h3.maps[b]? = (h.maps ++ [(∅ : StrMap)])[b]?) :
    h3.context l = some E := by
  obtain ⟨ref⟩ := l
  cases ref with
  | none => exact hE
  | some b =>
    simp only [Heap.context] at hE ⊢
    have hlt : b < h.maps.length := by
      rcases Nat.lt_or_ge b h.maps.length with hl | hl
      · exact hl
      · rw [List.getElem?_eq_none hl] at hE
        cases hE
    rw [hframe b (Nat.ne_of_gt hlt), List.getElem?_append_left hlt]
    exact hE

/-- Claim C9: for every `basicLogger` `l` with key/value context `E`, every key `k` and value
`v`, and whatever order the `range` loop takes, `l.Extra(k, v)` returns a logger whose context
maps `k` to `v` and every other key to what `E` maps it to, while the context of `l` itself is
still `E` afterwards. -/
theorem Extra_context (h : Heap) (l : basicLogger) (E : StrMap) (k v : String)
    (order : List (Sigma (fun _ : String => String)) → List (Sigma (fun _ : String => String)))
    (horder : ∀ es, (order es).Perm es)
    (hE : h.context l = some E) :
    (∃ E', (basicLogger.Extra h l k v order).1.context (basicLogger.Extra h l k v order).2
          = some E' ∧
        E'.lookup k = some v ∧ ∀ j, j ≠ k → E'.lookup j = E.lookup j) ∧
      (basicLogger.Extra h l k v order).1.context l = some E := by
  have hes := entries_of_context h l E hE
  have hfresh : (h.make.1).maps[h.maps.length]? = some (∅ : StrMap) := by
    simp [Heap.make]
  obtain ⟨f1, f2⟩ := fold_store h.maps.length (order ((h.make.1).entries l.extras))
    h.make.1 ∅ hfresh
  have hnd : (order ((h.make.1).entries l.extras)).NodupKeys := by
    rw [List.perm_nodupKeys (horder _), hes]
    exact E.nodupKeys
  have hlook : ∀ j, List.dlookup j (order ((h.make.1).entries l.extras)) = E.lookup j := by
    intro j
    rw [List.perm_dlookup j hnd (by rw [hes]; exact E.nodupKeys) (horder _), hes]
    rfl
  constructor
  · refine ⟨_, store_same _ _ k v _ f1, AList.lookup_insert _, fun j hj => ?_⟩
    rw [AList.lookup_insert_ne hj, lookup_fold_insert _ hnd, hlook j]
    cases E.lookup j <;> simp
  · apply context_ne_fresh h l E hE
    intro b hb
    have := store_other
      ((order ((h.make.1).entries l.extras)).foldl
        (fun hh kv => hh.store h.maps.length kv.1 kv.2) h.make.1) h.maps.length b k v hb
    exact this.trans (f2 b hb)

/-- Witness of C9, a logger with context request=r1 and trace=t9, visited in reverse order. -/
theorem Extra_context_witness :
    (∃ E', (basicLogger.Extra sampleHeap ⟨some 0⟩ "request" "r2" List.reverse).1.context
            (basicLogger.Extra sampleHeap ⟨some 0⟩ "request" "r2" List.reverse).2 = some E' ∧
        E'.lookup "request" = some "r2" ∧
        ∀ j, j ≠ "request" → E'.lookup j = sampleContext.lookup j) ∧
      (basicLogger.Extra sampleHeap ⟨some 0⟩ "request" "r2" List.reverse).1.context ⟨some 0⟩
        = some sampleContext :=
  Extra_context sampleHeap ⟨some 0⟩ sampleContext "request" "r2" List.reverse
    (fun es => List.reverse_perm es) (List.getElem?_cons_zero)

end logger


namespace main

/-- Claim C7: on `mockUserDAO`, for every store state (an allocated map) and every entity,
in particular one with an empty identifier, `Create` returns the entity without error, its
identifier is then non-empty, and a `Get` with that identifier directly afterwards returns
without error the very same entity (the same pointer, so the same identifier, `Name` and
`Email`); `Name` and `Email` are the ones the entity was created with. -/
theorem Create_then_Get {R : Type} (m : mockUserDAO R) (ctx ctx' : Context) (p : Nat)
    (u : User R) (tbl : AList (fun _ : String => Ptr))
    (hu : m.objects[p]? = some u) (hmap : m.users = some tbl) :
    ∃ m' u', m.Create ctx (some p) = .returned (m', some p, none) ∧
      m'.objects[p]? = some u' ∧ u'.ID ≠ "" ∧
      m'.Get ctx' u'.ID = (some p, none) ∧
      u'.Name = u.Name ∧ u'.Email = u.Email := by
  have hlt : p < m.objects.length := by
    rcases Nat.lt_or_ge p m.objects.length with hl | hl
    · exact hl
    · rw [List.getElem?_eq_none hl] at hu
      cases hu
  refine ⟨⟨m.objects.set p { u with ID := "test-id" }, some (tbl.insert "test-id" (some p))⟩,
    { u with ID := "test-id" }, ?_, ?_, ?_, ?_, rfl, rfl⟩
  · simp [mockUserDAO.Create, hu, hmap]
  · simp [List.getElem?_set, hlt]
  · exact (by decide : "test-id" ≠ "")
  · simp [mockUserDAO.Get, AList.lookup_insert]

/-- Witness of C7: the entity of the repository's test, created in an empty store. -/
theorem Create_then_Get_witness :
    ∃ m' u', (freshDAO johnDoe).Create Context.Background (some 0)
        = .returned (m', some 0, none) ∧
      m'.objects[0]? = some u' ∧ u'.ID ≠ "" ∧
      m'.Get Context.Background u'.ID = (some 0, none) ∧
      u'.Name = johnDoe.Name ∧ u'.Email = johnDoe.Email :=
  Create_then_Get (freshDAO johnDoe) Context.Background Context.Background 0 johnDoe ∅ rfl rfl

/-- Counterexample to C8: the store is empty, so "u1" is not a key of it; `Replace` of an
entity with identifier "u1" returns a nil error, and afterwards the store has a record under
"u1". -/
theorem Replace_absent_identifier_creates :
    (∃ tbl, (freshDAO stranger).users = some tbl ∧ tbl.lookup stranger.ID = none) ∧
      ∃ m' tbl', (freshDAO stranger).Replace Context.Background (some 0)
          = .returned (m', some 0, none) ∧
        m'.users = some tbl' ∧ tbl'.lookup stranger.ID = some (some 0) :=
  ⟨⟨∅, rfl, rfl⟩, _, _, rfl, rfl, AList.lookup_insert _⟩

/-- Claim C8, amended: on `mockUserDAO`, for every store state (an allocated map) and every
entity, whether or not its identifier is a key of the store, `Replace` returns the entity with
a nil error, and afterwards the store holds the entity under its identifier; every other key
is as before and no object is changed. -/
theorem Replace_stores {R : Type} (m : mockUserDAO R) (ctx : Context) (p : Nat)
    (u : User R) (tbl : AList (fun _ : String => Ptr))
    (hu : m.objects[p]? = some u) (hmap : m.users = some tbl) :
    ∃ tbl', m.Replace ctx (some p) = .returned (⟨m.objects, some tbl'⟩, some p, none) ∧
      tbl'.lookup u.ID = some (some p) ∧ ∀ j, j ≠ u.ID → tbl'.lookup j = tbl.lookup j := by
  refine ⟨tbl.insert u.ID (some p), ?_, AList.lookup_insert _, fun j hj => ?_⟩
  · simp [mockUserDAO.Replace, hu, hmap]
  · exact AList.lookup_insert_ne hj

/-- Witness of C8, amended: an identifier the store has never seen. -/
theorem Replace_stores_witness :
    ∃ tbl', (freshDAO stranger).Replace Context.Background (some 0)
        = .returned (⟨(freshDAO stranger).objects, some tbl'⟩, some 0, none) ∧
      tbl'.lookup stranger.ID = some (some 0) ∧
      ∀ j, j ≠ stranger.ID → tbl'.lookup j = (∅ : AList (fun _ : String => Ptr)).lookup j :=
  Replace_stores (freshDAO stranger) Context.Background 0 stranger ∅ rfl rfl

end main


end trex
